import Mathlib

/-!
Verification development for the FinTrack mutual-fund/stock portfolio
analyzer.  The Python sources (`data_fetcher.py`, `portfolio_analyzer.py`,
`storage.py`, `main.py`) are shallowly embedded below: pure computations
become Lean functions over `ℚ` (Python float arithmetic is modelled by
exact rational/real arithmetic), the external data providers and the
numerical XIRR root finder become explicit function parameters, and
fallible operations return `Option`.
-/

set_option exponentiation.threshold 4000
set_option maxRecDepth 40000

namespace FinTrack

/-! ### Calendar dates (Python `datetime.date`) -/

/-- A calendar date, mirroring Python `datetime.date` (year, month, day). -/
structure Date where
  year : Int
  month : Nat
  day : Nat
deriving DecidableEq, Repr

/-- Gregorian leap-year test, as used by `calendar.monthrange`. -/
def isLeapYear (y : Int) : Bool :=
  y % 4 == 0 && (y % 100 != 0 || y % 400 == 0)

/-- `calendar.monthrange(year, month)[1]`: number of days in the month. -/
def last_day_of_month (year : Int) (month : Nat) : Nat :=
  if month == 2 then (if isLeapYear year then 29 else 28)
  else if month == 4 || month == 6 || month == 9 || month == 11 then 30
  else 31

/-- A structurally valid calendar date (what `datetime.date` enforces in
its constructor). -/
def Date.valid (d : Date) : Prop :=
  1 ≤ d.month ∧ d.month ≤ 12 ∧ 1 ≤ d.day ∧ d.day ≤ last_day_of_month d.year d.month

instance (d : Date) : Decidable d.valid := by
  unfold Date.valid; infer_instance

/-- Chronological order on dates: Python compares `date` objects
lexicographically on (year, month, day), which is chronological order for
valid dates. -/
def Date.le (a b : Date) : Bool :=
  a.year < b.year ||
  (a.year == b.year && (a.month < b.month ||
    (a.month == b.month && a.day ≤ b.day)))

/-- The day before `d` (for valid dates).  Used to model
`date - timedelta(days = n)` by iteration. -/
def Date.pred (d : Date) : Date :=
  if 1 < d.day then ⟨d.year, d.month, d.day - 1⟩
  else if 1 < d.month then ⟨d.year, d.month - 1, last_day_of_month d.year (d.month - 1)⟩
  else ⟨d.year - 1, 12, 31⟩

/-- `d - timedelta(days = n)`. -/
def Date.subDays (d : Date) : Nat → Date
  | 0 => d
  | n + 1 => (d.subDays n).pred

/-- Serial day number of a proleptic Gregorian date (days since
1970-01-01, the standard `days_from_civil` computation).  Embeds the
subtraction `(d2 - d1).days` of Python `date` objects. -/
def Date.toSerial (d : Date) : Int :=
  let y : Int := if d.month ≤ 2 then d.year - 1 else d.year
  let era : Int := (if 0 ≤ y then y else y - 399) / 400
  let yoe : Int := y - era * 400
  let mp : Int := (d.month + 9 : Int) % 12
  let doy : Int := (153 * mp + 2) / 5 + d.day - 1
  let doe : Int := yoe * 365 + yoe / 4 - yoe / 100 + doy
  era * 146097 + doe - 719468

/-- `(b - a).days` for Python dates. -/
def daysBetween (a b : Date) : Int := b.toSerial - a.toSerial

/-! ### `data_fetcher.py`: `get_historical_nav` with fallback offsets

The mftool provider (`mf_toolkit.get_scheme_historical_nav`) is an
external collaborator; it is modelled as a function from scheme code and
fetch date (the code formats the date as a `dd-mm-YYYY` string; for valid
dates that formatting is injective, so we key the provider by the date
itself) to the list of returned entries.  Each entry's `"nav"` field is:
absent or falsy (`missing`), a numeric string with value `v` (`val v`), or
a non-numeric string on which `float(nav)` raises (`malformed`; the
surrounding `try` then catches the exception and the whole call returns
`None`). -/

inductive NavField where
  | missing
  | val (v : ℚ)
  | malformed
deriving DecidableEq, Repr

/-- Result of one probe of the provider (see `probeOutcomeOf`). -/
inductive ProbeOutcome where
  | hit (v : ℚ)
  | skip
  | abort
deriving DecidableEq, Repr

/-- Outcome of probing the provider at one fetch date: `hit v` when the
first entry carries a strictly positive NAV `v` (the `return float(nav)`
branch), `skip` when the response is empty/falsy, the `nav` field is
falsy, or the value is not strictly positive (the loop continues with the
next offset), `abort` when `float(nav)` raises (caught at function level:
the call returns `None`). -/
def probeOutcomeOf : List NavField → ProbeOutcome
  | [] => .skip
  | entry :: _ =>
    match entry with
    | .missing => .skip
    | .malformed => .abort
    | .val v => if 0 < v then .hit v else .skip

/-- `fallback_days = [0, 1, 2, 3, 5, 7, 10, 15, 30, 45, 60]`. -/
def fallback_days : List Nat := [0, 1, 2, 3, 5, 7, 10, 15, 30, 45, 60]

/-- The `for days in fallback_days` loop of `get_historical_nav`,
generalized over the remaining offset list. -/
def navSearch (provider : String → Date → List NavField) (code : String)
    (purchase_date : Date) : List Nat → Option ℚ
  | [] => none
  | days :: rest =>
    match probeOutcomeOf (provider code (purchase_date.subDays days)) with
    | .hit v => some v
    | .abort => none
    | .skip => navSearch provider code purchase_date rest

/-- `DataFetcher.get_historical_nav(fund_name, purchase_date)`:
resolve the scheme code (`get_scheme_code`, abstracted as a lookup
function; a falsy result returns `None`), then probe backwards from the
purchase date at each offset of `fallback_days`, returning the first
strictly positive NAV, or `None` when the sequence is exhausted. -/
def get_historical_nav (getSchemeCode : String → Option String)
    (provider : String → Date → List NavField)
    (fund_name : String) (purchase_date : Date) : Option ℚ :=
  match getSchemeCode fund_name with
  | none => none
  | some code => navSearch provider code purchase_date fallback_days

end FinTrack

namespace FinTrack

/-! ### `storage.py`

The portfolio file holds a JSON array of asset records.  A Python dict is
modelled as an association list from keys to values; a value is a JSON
scalar or a `datetime.date` object (which `json.dumps` cannot serialize).
The file itself is identified with the parsed JSON value it holds
(`json.dumps`/`json.loads` round-tripping on JSON values is the json
library's contract); an absent file is `none`. -/

inductive Value where
  | str (s : String)
  | num (q : ℚ)
  | bool (b : Bool)
  | null
  | date (d : Date)
deriving DecidableEq, Repr

/-- A JSON-serializable value (everything except a raw `date` object,
on which `json.dumps` raises `TypeError`). -/
def Value.jsonRepresentable : Value → Prop
  | .date _ => False
  | _ => True

instance (v : Value) : Decidable v.jsonRepresentable := by
  unfold Value.jsonRepresentable; cases v <;> infer_instance

abbrev Asset : Type := List (String × Value)

/-- `'0' + n` for a digit `n`. -/
def digitChar (n : Nat) : Char := Char.ofNat (48 + n)

/-- Numeric value of an ASCII digit character. -/
def digitVal (c : Char) : Option Nat :=
  if 48 ≤ c.toNat ∧ c.toNat ≤ 57 then some (c.toNat - 48) else none

def pad4 (n : Nat) : List Char :=
  [digitChar (n / 1000 % 10), digitChar (n / 100 % 10),
   digitChar (n / 10 % 10), digitChar (n % 10)]

def pad2 (n : Nat) : List Char :=
  [digitChar (n / 10 % 10), digitChar (n % 10)]

/-- `date.isoformat()`: the `YYYY-MM-DD` string, as a character list. -/
def Date.isoformatL (d : Date) : List Char :=
  pad4 d.year.toNat ++ '-' :: (pad2 d.month ++ '-' :: pad2 d.day)

/-- `date.isoformat()`. -/
def Date.isoformat (d : Date) : String := ⟨d.isoformatL⟩

/-- `date.fromisoformat` on a `YYYY-MM-DD` character list; `none` models
the `ValueError` raised on a malformed string or out-of-range date. -/
def Date.fromisoformatL : List Char → Option Date
  | [y1, y2, y3, y4, s1, m1, m2, s2, d1, d2] =>
    if s1 = '-' ∧ s2 = '-' then do
      let a ← digitVal y1
      let b ← digitVal y2
      let c ← digitVal y3
      let e ← digitVal y4
      let f ← digitVal m1
      let g ← digitVal m2
      let h ← digitVal d1
      let i ← digitVal d2
      let dt : Date := ⟨(1000 * a + 100 * b + 10 * c + e : Nat), 10 * f + g, 10 * h + i⟩
      if 1 ≤ dt.year ∧ dt.valid then some dt else none
    else none
  | _ => none

/-- `date.fromisoformat`. -/
def Date.fromisoformat (s : String) : Option Date := Date.fromisoformatL s.data

/-- `serialize_asset`: copy the record, replacing a `date`-valued
`"Purchase Date"` entry by its ISO string. -/
def serialize_asset (asset : Asset) : Asset :=
  asset.map fun kv =>
    if kv.1 = "Purchase Date" then
      match kv.2 with
      | .date d => (kv.1, .str d.isoformat)
      | v => (kv.1, v)
    else kv

/-- `deserialize_asset`: copy the record, parsing a string-valued
`"Purchase Date"` entry back to a date; `none` models the `ValueError`
escaping from `date.fromisoformat` on a malformed string. -/
def deserialize_asset (asset : Asset) : Option Asset :=
  asset.mapM fun kv =>
    if kv.1 = "Purchase Date" then
      match kv.2 with
      | .str s => match Date.fromisoformat s with
        | some d => some (kv.1, .date d)
        | none => none
      | v => some (kv.1, v)
    else some kv

/-- `save_portfolio`: serialize each record and write the JSON array.
`none` models the `TypeError` raised by `json.dumps` when a
non-representable value remains after serialization. -/
def save_portfolio (portfolio : List Asset) : Option (List Asset) :=
  let data := portfolio.map serialize_asset
  if ∀ a ∈ data, ∀ kv ∈ a, Value.jsonRepresentable kv.2 then some data else none

/-- `load_portfolio`: an absent file yields `[]`; otherwise parse every
record ( `some` = normal return, `none` = a `ValueError` escaping). -/
def load_portfolio (file : Option (List Asset)) : Option (List Asset) :=
  match file with
  | none => some []
  | some data => data.mapM deserialize_asset

/-! ### `portfolio_analyzer.py`

The `DataFetcher` collaborator and the `numpy_financial.xirr` root finder
are abstracted as an environment of functions (`none` = Python `None`, or
an exception caught at the call site); `date.today()` is the `today`
field.  Asset dicts become records: the fields the engine reads, plus
`unitsOwned`, standing for a `"units_owned"` key that a record may carry
(e.g. hand-added to `portfolio.json`) and that no engine code ever
reads. -/

structure Env where
  /-- `fetcher.get_historical_nav(name, date)` (fallback search inside). -/
  getHistoricalNav : String → Date → Option ℚ
  /-- `fetcher.get_current_price(asset_type, name)`. -/
  getCurrentPrice : String → String → Option ℚ
  /-- `fetcher.get_stock_data(name, date)` followed by `['Close'].iloc[0]`;
  `none` models an empty data frame. -/
  getStockClose : String → Date → Option ℚ
  /-- `npf.xirr(cash_flows, dates)`; `none` models an exception or a
  `None` result (non-convergence). -/
  xirrSolve : List ℚ → List Date → Option ℚ
  /-- `date.today()`. -/
  today : Date

/-- One user-entered holding (the dict built in `main.py`). -/
structure InAsset where
  /-- `"Type"`: `"Mutual Fund"` or `"Stock"`. -/
  type : String
  /-- `"Name"`. -/
  name : String
  /-- `"Investment Type"` (read with `.get`, hence optional). -/
  investmentType : Option String := none
  /-- `"Amount Invested"` (per month for SIP). -/
  amountInvested : ℚ
  /-- `"Purchase Date"`. -/
  purchaseDate : Date
  /-- A `"units_owned"` key, when present on the record; never read by
  the analyzer. -/
  unitsOwned : Option ℚ := none
deriving DecidableEq, Repr

/-- The enriched record `_analyze_single_asset` returns: the original
fields plus the keys the analyzer adds (`none` = key absent; for
`"XIRR"`, `some none` = the string `"N/A"`). -/
structure AnalyzedAsset where
  base : InAsset
  /-- `"error"`. -/
  error : Option String := none
  /-- `"Total Invested"`. -/
  totalInvested : Option ℚ := none
  /-- `"Purchase Price"`. -/
  purchasePrice : Option ℚ := none
  /-- `"Current Price"`. -/
  currentPrice : Option ℚ := none
  /-- `"Units/Shares"`. -/
  unitsShares : Option ℚ := none
  /-- `"Current Value"`. -/
  currentValue : Option ℚ := none
  /-- `"Gain/Loss"`. -/
  gainLoss : Option ℚ := none
  /-- `"Percentage Return"`. -/
  percentageReturn : Option ℚ := none
  /-- `"XIRR"` (`some none` = `"N/A"`). -/
  xirrField : Option (Option ℚ) := none
deriving DecidableEq, Repr

/-- Python `round(y, 2)`: to two decimals.  Modelled as round-half-up;
Python rounds exact halves to even, which differs only at exact ties. -/
def roundTo2 (y : ℚ) : ℚ := ((⌊y * 100 + 1 / 2⌋ : ℤ) : ℚ) / 100

/-- `is_sip` (line 47): mutual fund with `"Investment Type" == "SIP"`. -/
def is_sip (asset : InAsset) : Bool :=
  asset.type == "Mutual Fund" && asset.investmentType == some "SIP"

/-- `number_of_months` as computed on line 50 of
`_analyze_single_asset`. -/
def number_of_months (today purchase_date : Date) : Int :=
  (today.year - purchase_date.year) * 12 +
    ((today.month : Int) - (purchase_date.month : Int)) + 1

/-- The installment date synthesized on lines 60–64 of
`_analyze_single_asset` for loop index `i`. -/
def installment_date (purchase_date : Date) (i : Nat) : Date :=
  let current_month := purchase_date.month + i
  let current_year := purchase_date.year + ((current_month - 1) / 12 : Nat)
  let installment_month := (current_month - 1) % 12 + 1
  let day := min purchase_date.day (last_day_of_month current_year installment_month)
  ⟨current_year, installment_month, day⟩

/-- `number_of_months` as recomputed on line 145 of
`calculate_portfolio_xirr` (same expression as line 50). -/
def number_of_months_pxirr (today purchase_date : Date) : Int :=
  (today.year - purchase_date.year) * 12 +
    ((today.month : Int) - (purchase_date.month : Int)) + 1

/-- The installment date synthesized on lines 149–153 of
`calculate_portfolio_xirr` (same expressions as lines 60–64). -/
def installment_date_pxirr (purchase_date : Date) (i : Nat) : Date :=
  let current_month := purchase_date.month + i
  let current_year := purchase_date.year + ((current_month - 1) / 12 : Nat)
  let installment_month := (current_month - 1) % 12 + 1
  let day := min purchase_date.day (last_day_of_month current_year installment_month)
  ⟨current_year, installment_month, day⟩

/-- The full installment-date schedule the SIP loop of
`_analyze_single_asset` runs through (`range(number_of_months)`; an empty
range when the count is non-positive). -/
def sip_schedule_analyze (today purchase_date : Date) : List Date :=
  (List.range (number_of_months today purchase_date).toNat).map
    (installment_date purchase_date)

/-- The installment-date schedule the SIP branch of
`calculate_portfolio_xirr` runs through. -/
def sip_schedule_pxirr (today purchase_date : Date) : List Date :=
  (List.range (number_of_months_pxirr today purchase_date).toNat).map
    (installment_date_pxirr purchase_date)

/-- Accumulator of the SIP installment loop (lines 54–57). -/
structure SipState where
  units_or_shares : ℚ
  cash_flows : List ℚ
  dates : List Date
  all_installments_valid : Bool
deriving DecidableEq, Repr

/-- The `for i in range(number_of_months)` loop (lines 59–73): fetch the
NAV at each installment date; on a truthy NAV accumulate
`monthly_investment / monthly_nav` units and record the outflow, otherwise
clear `all_installments_valid` and `break`. -/
def sip_loop (env : Env) (name : String) (monthly_investment : ℚ)
    (purchase_date : Date) : List Nat → SipState → SipState
  | [], st => st
  | i :: rest, st =>
    let idate := installment_date purchase_date i
    match env.getHistoricalNav name idate with
    | some nav =>
      if nav ≠ 0 then
        sip_loop env name monthly_investment purchase_date rest
          { units_or_shares := st.units_or_shares + monthly_investment / nav
            cash_flows := st.cash_flows ++ [-monthly_investment]
            dates := st.dates ++ [idate]
            all_installments_valid := st.all_installments_valid }
      else { st with all_installments_valid := false }
    | none => { st with all_installments_valid := false }

/-- Lines 29–41 of `_analyze_single_asset`: the `(purchase_price,
current_price)` pair fetched according to the asset type (both stay
`None` for an unrecognized type). -/
def fetched_prices (env : Env) (asset : InAsset) : Option ℚ × Option ℚ :=
  if asset.type = "Mutual Fund" then
    (env.getHistoricalNav asset.name asset.purchaseDate,
     env.getCurrentPrice "Mutual Fund" asset.name)
  else if asset.type = "Stock" then
    (env.getStockClose asset.name asset.purchaseDate,
     env.getCurrentPrice "Stock" asset.name)
  else (none, none)

/-- `PortfolioAnalyzer._analyze_single_asset`. -/
def _analyze_single_asset (env : Env) (asset : InAsset) : AnalyzedAsset :=
  let purchase_date := asset.purchaseDate
  match fetched_prices env asset with
  | (some fetched_purchase_price, some current_price) =>
    if is_sip asset then
      let n := number_of_months env.today purchase_date
      let monthly_investment := asset.amountInvested
      let total_invested := monthly_investment * (n : ℚ)
      let st := sip_loop env asset.name monthly_investment purchase_date
        (List.range n.toNat) ⟨0, [], [], true⟩
      let units_or_shares := st.units_or_shares
      -- line 75
      let purchase_price :=
        if 0 < units_or_shares then total_invested / units_or_shares else 0
      let current_value := units_or_shares * current_price
      let gain_loss := current_value - total_invested
      { base := asset
        totalInvested := some total_invested
        purchasePrice := some purchase_price
        currentPrice := some current_price
        unitsShares := some units_or_shares
        currentValue := some current_value
        gainLoss := some gain_loss
        percentageReturn :=
          some (if 0 < total_invested then gain_loss / total_invested * 100 else 0)
        -- lines 92–102
        xirrField :=
          if st.all_installments_valid ∧ 0 < current_value then
            match env.xirrSolve (st.cash_flows ++ [current_value])
                (st.dates ++ [env.today]) with
            | some xirr_value => some (some (roundTo2 (xirr_value * 100)))
            | none => some none
          else some none }
    else
      let total_invested := asset.amountInvested
      let units_or_shares := total_invested / fetched_purchase_price
      let current_value := units_or_shares * current_price
      let gain_loss := current_value - total_invested
      { base := asset
        totalInvested := some total_invested
        purchasePrice := some fetched_purchase_price
        currentPrice := some current_price
        unitsShares := some units_or_shares
        currentValue := some current_value
        gainLoss := some gain_loss
        percentageReturn :=
          some (if 0 < total_invested then gain_loss / total_invested * 100 else 0) }
  | _ =>
    -- lines 43–45
    { base := asset, error := some "Could not fetch price/NAV data." }

/-- `years_held` of line 104: `(date.today() - purchase_date).days / 365.25`. -/
noncomputable def years_held (today purchase_date : Date) : ℝ :=
  ((daysBetween purchase_date today : ℤ) : ℝ) / 365.25

/-- `round(y, 2)` over the reals (for the CAGR percentage). -/
noncomputable def roundTo2R (y : ℝ) : ℝ := ((⌊y * 100 + 1 / 2⌋ : ℤ) : ℝ) / 100

/-- Lines 103–109: the `"CAGR"` value stored on the lumpsum branch
(`some` = a number, `none` = the string `"N/A"`). -/
noncomputable def cagr_field (today purchase_date : Date)
    (total_invested current_value : ℚ) : Option ℝ :=
  if 0 < years_held today purchase_date ∧ (0 : ℚ) < total_invested then
    some (roundTo2R
      ((((current_value : ℝ) / (total_invested : ℝ)) ^
        (1 / years_held today purchase_date) - 1) * 100))
  else none

/-- The `"CAGR"` key of the analyzed record: absent (`none`) on the error
path and on the SIP branch, otherwise the value of lines 103–109 applied
to the branch's `total_invested` and `current_value` (which
`_analyze_single_asset` also stores on the record). -/
noncomputable def analyzed_cagr (env : Env) (asset : InAsset) : Option (Option ℝ) :=
  let r := _analyze_single_asset env asset
  if r.error.isSome then none
  else if is_sip asset then none
  else some (cagr_field env.today asset.purchaseDate
    (r.totalInvested.getD 0) (r.currentValue.getD 0))

/-- Strict chronological order on dates (tuple `<` in Python). -/
def Date.lt (a b : Date) : Bool :=
  a.year < b.year ||
  (a.year == b.year && (a.month < b.month ||
    (a.month == b.month && a.day < b.day)))

/-- Lexicographic order on `(date, cash_flow)` pairs: how Python's
`sorted` compares the tuples produced by `zip(dates, cash_flows)`. -/
def flowLe (x y : Date × ℚ) : Prop :=
  (Date.lt x.1 y.1 || (x.1 == y.1 && decide (x.2 ≤ y.2))) = true

instance : DecidableRel flowLe := fun _ _ => by unfold flowLe; infer_instance

/-- The flows and dates `calculate_portfolio_xirr` appends for one
analyzed asset (lines 135–156): errored assets are skipped; a non-SIP
asset contributes one outflow of `asset["Total Invested"]` on its
purchase date (the key is always present on non-errored records); a SIP
asset contributes one outflow of `asset["Amount Invested"]` per
synthesized installment date. -/
def pxirr_asset_flows (env : Env) (asset : AnalyzedAsset) : List ℚ × List Date :=
  if asset.error.isSome then ([], [])
  else if asset.base.investmentType ≠ some "SIP" then
    ([-(asset.totalInvested.getD 0)], [asset.base.purchaseDate])
  else
    let purchase_date := asset.base.purchaseDate
    let n := number_of_months_pxirr env.today purchase_date
    let monthly_investment := asset.base.amountInvested
    ((List.range n.toNat).map fun _ => -monthly_investment,
     (List.range n.toNat).map fun i => installment_date_pxirr purchase_date i)

/-- `PortfolioAnalyzer.calculate_portfolio_xirr` (`none` = `"N/A"`).
Python's stable `sorted` over the zipped `(date, flow)` tuples is
modelled by `insertionSort` under `flowLe`; `flowLe` is antisymmetric, so
every correct sort of the pairs yields this same list.  Unpacking
`zip(*sorted_flows)` on an empty list raises, caught as `"N/A"`. -/
def calculate_portfolio_xirr (env : Env) (detailed_results : List AnalyzedAsset) :
    Option ℚ :=
  let cash_flows := (detailed_results.map fun a => (pxirr_asset_flows env a).1).flatten
  let dates := (detailed_results.map fun a => (pxirr_asset_flows env a).2).flatten
  let total_current_value :=
    ((detailed_results.filter fun a => a.error = none).map
      fun a => a.currentValue.getD 0).sum
  let cash_flows :=
    if 0 < total_current_value then cash_flows ++ [total_current_value] else cash_flows
  let dates := if 0 < total_current_value then dates ++ [env.today] else dates
  let sorted_flows := (dates.zip cash_flows).insertionSort flowLe
  match sorted_flows with
  | [] => none
  | _ =>
    match env.xirrSolve (sorted_flows.map Prod.snd) (sorted_flows.map Prod.fst) with
    | some xirr_value => some (roundTo2 (xirr_value * 100))
    | none => none

/-- `PortfolioAnalyzer.aggregate_portfolio_results`: the summary dict, as
the association list the code builds.  `portfolio_xirr` is computed (the
call on line 121) but does not appear in the returned dict. -/
def aggregate_portfolio_results (env : Env) (detailed_results : List AnalyzedAsset) :
    List (String × ℚ) :=
  let valid_assets := detailed_results.filter fun a => a.error = none
  let total_invested := (valid_assets.map fun a => a.totalInvested.getD 0).sum
  let total_current_value := (valid_assets.map fun a => a.currentValue.getD 0).sum
  let total_gain_loss := total_current_value - total_invested
  let percentage_return :=
    if 0 < total_invested then total_gain_loss / total_invested * 100 else 0
  let _portfolio_xirr := calculate_portfolio_xirr env detailed_results
  [("Total Invested", total_invested),
   ("Total Current Value", total_current_value),
   ("Total Gain/Loss", total_gain_loss),
   ("Percentage Return", percentage_return)]

/-- The dict `analyze_portfolio` returns. -/
structure AnalysisResult where
  details : List AnalyzedAsset
  summary : List (String × ℚ)
deriving DecidableEq, Repr

/-- `PortfolioAnalyzer.analyze_portfolio`. -/
def analyze_portfolio (env : Env) (portfolio : List InAsset) : AnalysisResult :=
  let detailed_results := portfolio.map (_analyze_single_asset env)
  { details := detailed_results
    summary := aggregate_portfolio_results env detailed_results }

/-! ### Concrete fixtures for witnesses and counterexamples -/

/-- A fetcher for which every NAV lookup yields 10, the current price is
12, and the XIRR solver converges to 25 %. -/
def envAllTen : Env where
  getHistoricalNav := fun _ _ => some 10
  getCurrentPrice := fun _ _ => some 12
  getStockClose := fun _ _ => none
  xirrSolve := fun _ _ => some (1 / 4)
  today := ⟨2024, 3, 20⟩

/-- A monthly SIP of 1000 since 2024-01-15. -/
def sipAsset : InAsset where
  type := "Mutual Fund"
  name := "FundA"
  investmentType := some "SIP"
  amountInvested := 1000
  purchaseDate := ⟨2024, 1, 15⟩

/-- A lumpsum holding of 10000 since 2022-05-10 that also carries an
explicit `units_owned = 5` entry. -/
def lumpAssetWithUnits : InAsset where
  type := "Mutual Fund"
  name := "FundB"
  investmentType := some "Lumpsum"
  amountInvested := 10000
  purchaseDate := ⟨2022, 5, 10⟩
  unitsOwned := some 5

/-- A fetcher with acquisition NAV 100 and current NAV 121;
"today" is 2024-05-10, exactly two years (731 days) after 2022-05-10. -/
def envCagr : Env where
  getHistoricalNav := fun _ _ => some 100
  getCurrentPrice := fun _ _ => some 121
  getStockClose := fun _ _ => none
  xirrSolve := fun _ _ => none
  today := ⟨2024, 5, 10⟩

/-- The lumpsum CAGR scenario holding: 10000 invested on 2022-05-10. -/
def lumpAsset : InAsset where
  type := "Mutual Fund"
  name := "FundB"
  investmentType := some "Lumpsum"
  amountInvested := 10000
  purchaseDate := ⟨2022, 5, 10⟩

/-- A provider with no data at offsets 0–2 from 2024-03-15 and NAV 42 at
offset 3. -/
def navProviderGap : String → Date → List NavField :=
  fun _ d => if d = Date.subDays ⟨2024, 3, 15⟩ 3 then [NavField.val 42] else []

/-- Same as `navProviderGap` up to offset 3, but with a different price
at offset 5. -/
def navProviderGapTail : String → Date → List NavField :=
  fun c d => if d = Date.subDays ⟨2024, 3, 15⟩ 5 then [NavField.val 999]
    else navProviderGap c d

/-- A stock holding whose price history comes back empty under the
fixture fetchers. -/
def stockAssetBad : InAsset where
  type := "Stock"
  name := "XYZ"
  investmentType := some "Lumpsum"
  amountInvested := 500
  purchaseDate := ⟨2023, 1, 5⟩

/-- Fetcher with a NAV only on 2024-01-15 (the first installment); later
installments have no quote. -/
def envFirstOnly : Env :=
  { envAllTen with
    getHistoricalNav := fun _ d => if d = ⟨2024, 1, 15⟩ then some 10 else none }

/-- Fetcher whose XIRR solver never converges. -/
def envSolverFail : Env := { envAllTen with xirrSolve := fun _ _ => none }

/-- The month after (year, month): month 12 rolls into January of the
next year.  Spec-side notion for "one calendar month later". -/
def monthAfter (y : Int) (m : Nat) : Int × Nat :=
  if m = 12 then (y + 1, 1) else (y, m + 1)

/-- (year, month) shifted by `i` calendar months: `monthAfter`
iterated. -/
def monthShift (y : Int) (m : Nat) : Nat → Int × Nat
  | 0 => (y, m)
  | i + 1 => monthAfter (monthShift y m i).1 (monthShift y m i).2

/-- Modelled from the claim's wording: the date lying `i` calendar months
after `pd`, with the day-of-month clamped to
`min(pd.day, length of the target month)`. -/
def addMonthsClamped (pd : Date) (i : Nat) : Date :=
  let p := monthShift pd.year pd.month i
  ⟨p.1, p.2, min pd.day (last_day_of_month p.1 p.2)⟩

/-- A stored holding record as the UI creates it. -/
def storedAsset : Asset :=
  [("Type", .str "Mutual Fund"), ("Name", .str "FundB"),
   ("Amount Invested", .num 10000), ("Purchase Date", .date ⟨2022, 5, 10⟩),
   ("Investment Type", .str "Lumpsum")]

end FinTrack

namespace FinTrack

/-! ### Helper lemmas -/

/-- Unrolling of the SIP installment loop when every NAV in the remaining
index list resolves to a nonzero value `f i`: units accumulate as
`Σ monthly / f i`, one outflow and one date are recorded per index, and
the validity flag is preserved. -/
theorem sip_loop_total (env : Env) (name : String) (m : ℚ) (pd : Date) :
    ∀ (l : List Nat) (st : SipState) (f : Nat → ℚ),
    (∀ i ∈ l, env.getHistoricalNav name (installment_date pd i) = some (f i) ∧ f i ≠ 0) →
    sip_loop env name m pd l st =
      { units_or_shares := st.units_or_shares + (l.map fun i => m / f i).sum
        cash_flows := st.cash_flows ++ l.map fun _ => -m
        dates := st.dates ++ l.map (installment_date pd)
        all_installments_valid := st.all_installments_valid } := by
  intro l
  induction l with
  | nil => intro st f _; simp [sip_loop]
  | cons a t ih =>
    intro st f h
    obtain ⟨ha, hz⟩ := h a (List.mem_cons_self a t)
    have ht := fun i hi => h i (List.mem_cons_of_mem a hi)
    simp only [sip_loop, ha, hz, if_pos, ne_eq, not_false_eq_true, if_true]
    rw [ih _ f ht]
    simp [add_assoc, List.append_assoc]

end FinTrack

namespace FinTrack

/-! ### Claims -/

/-- C1 (counterexample): a SystematicPlan holding — which in this code
base never carries per-installment `transactions` records, since no such
field exists — is not reported Unresolved: with every installment NAV
available the engine derives 300 units from NAV lookups and computes a
current value (3600) and an XIRR figure, contradicting the claim. -/
theorem C1_counterexample :
    is_sip sipAsset = true ∧
    (_analyze_single_asset envAllTen sipAsset).error = none ∧
    (_analyze_single_asset envAllTen sipAsset).unitsShares = some 300 ∧
    (_analyze_single_asset envAllTen sipAsset).currentValue = some 3600 ∧
    (_analyze_single_asset envAllTen sipAsset).xirrField = some (some 25) := by
  refine ⟨by decide, ?_, ?_, ?_, ?_⟩ <;>
    norm_num [_analyze_single_asset, fetched_prices, envAllTen, sipAsset, is_sip,
      number_of_months, sip_loop, installment_date, last_day_of_month, isLeapYear,
      List.range_succ, roundTo2]

/-- C1 (amended): a SIP holding is never reported Unresolved for lack of
transaction-level data; the engine instead re-derives its unit count from
per-installment NAV lookups — one `get_historical_nav` call per
synthesized monthly installment date, accumulating amount / NAV — and
when every installment NAV resolves to a nonzero value the holding
receives those computed units, a current value of units × current price,
and a total invested of amount × number of months. -/
theorem C1_sip_units_rederived_per_installment (env : Env) (a : InAsset)
    (f : Nat → ℚ) (p0 cp : ℚ)
    (hsip : is_sip a = true)
    (hnav : env.getHistoricalNav a.name a.purchaseDate = some p0)
    (hcp : env.getCurrentPrice "Mutual Fund" a.name = some cp)
    (hinst : ∀ i ∈ List.range (number_of_months env.today a.purchaseDate).toNat,
      env.getHistoricalNav a.name (installment_date a.purchaseDate i) = some (f i) ∧
        f i ≠ 0) :
    (_analyze_single_asset env a).error = none ∧
    (_analyze_single_asset env a).unitsShares =
      some (((List.range (number_of_months env.today a.purchaseDate).toNat).map
        fun i => a.amountInvested / f i).sum) ∧
    (_analyze_single_asset env a).currentValue =
      some ((((List.range (number_of_months env.today a.purchaseDate).toNat).map
        fun i => a.amountInvested / f i).sum) * cp) ∧
    (_analyze_single_asset env a).totalInvested =
      some (a.amountInvested * ((number_of_months env.today a.purchaseDate : ℤ) : ℚ)) := by
  have hty : a.type = "Mutual Fund" := by
    have h := hsip
    simp [is_sip, Bool.and_eq_true, beq_iff_eq] at h
    exact h.1
  have hfp : fetched_prices env a = (some p0, some cp) := by
    simp [fetched_prices, hty, hnav, hcp]
  simp only [_analyze_single_asset, hfp, hsip, if_true]
  rw [sip_loop_total env a.name a.amountInvested a.purchaseDate _ _ f hinst]
  simp

/-- C1 (witness). -/
theorem C1_witness :
    (_analyze_single_asset envAllTen sipAsset).error = none ∧
    (_analyze_single_asset envAllTen sipAsset).unitsShares = some 300 ∧
    (_analyze_single_asset envAllTen sipAsset).totalInvested = some 3000 := by
  have h := C1_sip_units_rederived_per_installment envAllTen sipAsset
    (fun _ => 10) 10 12 (by decide) rfl rfl
    (by intro i _; exact ⟨rfl, by norm_num⟩)
  refine ⟨h.1, ?_, ?_⟩
  · rw [h.2.1]
    simp [sipAsset, envAllTen, number_of_months, List.range_succ] <;> norm_num
  · rw [h.2.2.2]
    simp [sipAsset, envAllTen, number_of_months] <;> norm_num

/-- C2 (counterexample): a holding carrying an explicit
`units_owned = 5` entry does not resolve to 5 units: the engine ignores
the entry and derives 10000 / 100 = 100 units from the fetched
acquisition NAV. -/
theorem C2_counterexample :
    lumpAssetWithUnits.unitsOwned = some 5 ∧
    (_analyze_single_asset envCagr lumpAssetWithUnits).unitsShares = some 100 ∧
    (_analyze_single_asset envCagr lumpAssetWithUnits).unitsShares ≠ some 5 := by
  refine ⟨rfl, ?_, ?_⟩ <;>
    simp [_analyze_single_asset, fetched_prices, envCagr, lumpAssetWithUnits, is_sip] <;>
      norm_num

/-- C2 (amended): no precedence rule consults a supplied `units_owned`
value; for every non-SIP holding whose price fetches succeed, resolved
units equal `amount_invested / fetched purchase price`, whatever
`units_owned` entry the record carries, and the resolved units are the
same as for the record without that entry. -/
theorem C2_units_owned_ignored (env : Env) (a : InAsset) (u : Option ℚ) (pp cp : ℚ)
    (hsip : is_sip a = false)
    (hf : fetched_prices env a = (some pp, some cp)) :
    (_analyze_single_asset env { a with unitsOwned := u }).unitsShares =
      some (a.amountInvested / pp) ∧
    (_analyze_single_asset env { a with unitsOwned := u }).unitsShares =
      (_analyze_single_asset env a).unitsShares := by
  have hf' : fetched_prices env { a with unitsOwned := u } = (some pp, some cp) := hf
  have hsip' : is_sip { a with unitsOwned := u } = false := hsip
  refine ⟨?_, ?_⟩ <;> simp only [_analyze_single_asset, hf', hf, hsip', hsip,
    Bool.false_eq_true, if_false]

/-- C2 (witness). -/
theorem C2_witness :
    (_analyze_single_asset envCagr lumpAssetWithUnits).unitsShares = some 100 := by
  have h := (C2_units_owned_ignored envCagr lumpAsset (some 5) 100 121 rfl rfl).1
  have h2 : lumpAsset.amountInvested / (100 : ℚ) = 100 := by norm_num [lumpAsset]
  rw [h2] at h
  exact h

end FinTrack

namespace FinTrack

/-- C3: `aggregate_portfolio_results` invokes `calculate_portfolio_xirr`
(line 121) — which on this one-lumpsum portfolio merges the holding's
outflow with the final inflow equal to aggregate current value dated
today and yields 25 — but the summary record it returns carries no
portfolio-XIRR entry under any key (`main.py` reads
`summary.get('Portfolio XIRR')` and always gets its fallback): the
computed value is dropped.  This refutes the claim that the summary
record contains the portfolio-level XIRR figure. -/
theorem C3_summary_lacks_portfolio_xirr :
    calculate_portfolio_xirr envAllTen
        (analyze_portfolio envAllTen [lumpAsset]).details = some 25 ∧
    ((analyze_portfolio envAllTen [lumpAsset]).summary.map Prod.fst =
      ["Total Invested", "Total Current Value", "Total Gain/Loss",
       "Percentage Return"]) ∧
    (analyze_portfolio envAllTen [lumpAsset]).summary.lookup "Portfolio XIRR" = none ∧
    (analyze_portfolio envAllTen [lumpAsset]).summary.lookup "XIRR" = none := by
  refine ⟨?_, ?_, ?_, ?_⟩ <;>
    simp [analyze_portfolio, aggregate_portfolio_results, calculate_portfolio_xirr,
      pxirr_asset_flows, _analyze_single_asset, fetched_prices, envAllTen, lumpAsset,
      is_sip, List.insertionSort, List.orderedInsert, flowLe, Date.lt, roundTo2,
      List.lookup] <;>
      norm_num

end FinTrack

namespace FinTrack

/-- C8: the percentage-return division is guarded by `total_invested > 0`
at both levels: a holding whose stored total invested is 0 gets
percentage return 0 (the defined degenerate value, not `NaN` or an
error), and a portfolio whose valid holdings sum to 0 total invested gets
aggregate percentage return 0 — the guard makes the division's error
branch unreachable. -/
theorem C8_percentage_return_zero_guard :
    (∀ (env : Env) (a : InAsset),
      (_analyze_single_asset env a).totalInvested = some 0 →
      (_analyze_single_asset env a).percentageReturn = some 0) ∧
    (∀ (env : Env) (results : List AnalyzedAsset),
      ((results.filter fun r => r.error = none).map
        fun r => r.totalInvested.getD 0).sum = 0 →
      (aggregate_portfolio_results env results).lookup "Percentage Return" =
        some 0) := by
  constructor
  · intro env a h
    unfold _analyze_single_asset at h ⊢
    rcases hf : fetched_prices env a with ⟨pp, cp⟩
    rw [hf] at h
    rcases pp with _ | p <;> rcases cp with _ | c
    · simp at h
    · simp at h
    · simp at h
    · rcases hs : is_sip a with _ | _
      · simp only [hs, Bool.false_eq_true, if_false, Option.some.injEq] at h ⊢
        simp [h]
      · simp only [hs, if_true, Option.some.injEq] at h ⊢
        simp [h]
  · intro env results h
    unfold aggregate_portfolio_results
    simp only [List.lookup, h]
    simp

/-- C8 (witness). -/
theorem C8_witness :
    (_analyze_single_asset envCagr { lumpAsset with amountInvested := 0 }).percentageReturn =
      some 0 ∧
    (aggregate_portfolio_results envAllTen []).lookup "Percentage Return" = some 0 := by
  constructor
  · exact C8_percentage_return_zero_guard.1 envCagr { lumpAsset with amountInvested := 0 }
      (by simp [_analyze_single_asset, fetched_prices, envCagr, lumpAsset, is_sip])
  · exact C8_percentage_return_zero_guard.2 envAllTen [] (by simp)

end FinTrack

namespace FinTrack

/-- Probing skips over every offset whose outcome is `skip`. -/
theorem navSearch_skip_front (p : String → Date → List NavField) (code : String)
    (pd : Date) :
    ∀ l1 l2 : List Nat,
      (∀ e ∈ l1, probeOutcomeOf (p code (pd.subDays e)) = .skip) →
      navSearch p code pd (l1 ++ l2) = navSearch p code pd l2 := by
  intro l1
  induction l1 with
  | nil => intro l2 _; rfl
  | cons a t ih =>
    intro l2 h
    have ha := h a (List.mem_cons_self a t)
    have ht := fun e he => h e (List.mem_cons_of_mem a he)
    simp only [List.cons_append, navSearch, ha]
    exact ih l2 ht

/-- Probing stops at the first `hit`. -/
theorem navSearch_hit_head (p : String → Date → List NavField) (code : String)
    (pd : Date) (d : Nat) (l : List Nat) (v : ℚ)
    (h : probeOutcomeOf (p code (pd.subDays d)) = .hit v) :
    navSearch p code pd (d :: l) = some v := by
  simp [navSearch, h]

/-- An all-`skip` list exhausts to `none`. -/
theorem navSearch_exhausted (p : String → Date → List NavField) (code : String)
    (pd : Date) :
    ∀ l : List Nat,
      (∀ e ∈ l, probeOutcomeOf (p code (pd.subDays e)) = .skip) →
      navSearch p code pd l = none := by
  intro l
  induction l with
  | nil => intro _; rfl
  | cons a t ih =>
    intro h
    simp only [navSearch, h a (List.mem_cons_self a t)]
    exact ih fun e he => h e (List.mem_cons_of_mem a he)

/-- C4: with the scheme code resolvable, `get_historical_nav` probes the
offsets in exactly the order of `fallback_days = [0, 1, 2, 3, 5, 7, 10,
15, 30, 45, 60]`: whenever the offsets before some position all yield no
usable quote (`skip`) and that position yields a strictly positive price
`v` (`hit`), the result is `v` — and the result is the same under any
provider that agrees on the probed offsets only, so no later offset is
ever consulted; when every offset in the sequence yields `skip`, the
result is `None` (Unavailable). -/
theorem C4_fallback_price_search (sc : String → Option String)
    (p : String → Date → List NavField) (fund : String) (pd : Date) (code : String)
    (hcode : sc fund = some code) :
    (∀ (pre : List Nat) (d : Nat) (post : List Nat) (v : ℚ),
      fallback_days = pre ++ d :: post →
      (∀ e ∈ pre, probeOutcomeOf (p code (pd.subDays e)) = .skip) →
      probeOutcomeOf (p code (pd.subDays d)) = .hit v →
      get_historical_nav sc p fund pd = some v ∧
      (∀ p2 : String → Date → List NavField,
        (∀ e ∈ pre, p2 code (pd.subDays e) = p code (pd.subDays e)) →
        p2 code (pd.subDays d) = p code (pd.subDays d) →
        get_historical_nav sc p2 fund pd = some v)) ∧
    ((∀ e ∈ fallback_days, probeOutcomeOf (p code (pd.subDays e)) = .skip) →
      get_historical_nav sc p fund pd = none) := by
  constructor
  · intro pre d post v hsplit hskip hhit
    constructor
    · simp only [get_historical_nav, hcode, hsplit]
      rw [navSearch_skip_front p code pd pre (d :: post) hskip]
      exact navSearch_hit_head p code pd d post v hhit
    · intro p2 hagree hagreed
      simp only [get_historical_nav, hcode, hsplit]
      rw [navSearch_skip_front p2 code pd pre (d :: post)
        (fun e he => by rw [hagree e he]; exact hskip e he)]
      exact navSearch_hit_head p2 code pd d post v (by rw [hagreed]; exact hhit)
  · intro h
    simp only [get_historical_nav, hcode]
    exact navSearch_exhausted p code pd fallback_days h

/-- C4 (witness): no data at offsets 0,1,2 and NAV 42 at offset 3 yields
42, for both providers that agree up to offset 3. -/
theorem C4_witness :
    get_historical_nav (fun _ => some "C") navProviderGap "F" ⟨2024, 3, 15⟩ =
      some 42 ∧
    get_historical_nav (fun _ => some "C") navProviderGapTail "F" ⟨2024, 3, 15⟩ =
      some 42 := by
  have h := (C4_fallback_price_search (fun _ => some "C") navProviderGap "F"
    ⟨2024, 3, 15⟩ "C" rfl).1 [0, 1, 2] 3 [5, 7, 10, 15, 30, 45, 60] 42 rfl
    (by intro e he; fin_cases he <;> with_unfolding_all decide)
    (by with_unfolding_all decide)
  exact ⟨h.1, h.2 navProviderGapTail
    (by intro e he; fin_cases he <;> with_unfolding_all decide)
    (by with_unfolding_all decide)⟩

end FinTrack

namespace FinTrack

/-- When either fetched price is `None`, the analyzed record is the
original asset annotated with the error message and nothing else. -/
theorem analyze_error_of_fetch_fail (env : Env) (a : InAsset)
    (h : (fetched_prices env a).1 = none ∨ (fetched_prices env a).2 = none) :
    _analyze_single_asset env a =
      { base := a, error := some "Could not fetch price/NAV data." } := by
  unfold _analyze_single_asset
  rcases hf : fetched_prices env a with ⟨pp, cp⟩
  rw [hf] at h
  rcases pp with _ | p <;> rcases cp with _ | c <;> simp_all

/-- C6: the summary's totals are the sums of `Total Invested` and
`Current Value` over exactly the holdings without an `error` annotation;
and extending a portfolio by one holding whose price lookup fails leaves
the entire summary record unchanged while appending exactly one
error-annotated entry to `details`. -/
theorem C6_totals_over_non_errored_and_frame :
    (∀ (env : Env) (results : List AnalyzedAsset),
      (aggregate_portfolio_results env results).lookup "Total Invested" =
        some (((results.filter fun r => r.error = none).map
          fun r => r.totalInvested.getD 0).sum) ∧
      (aggregate_portfolio_results env results).lookup "Total Current Value" =
        some (((results.filter fun r => r.error = none).map
          fun r => r.currentValue.getD 0).sum)) ∧
    (∀ (env : Env) (portfolio : List InAsset) (a : InAsset),
      (fetched_prices env a).1 = none ∨ (fetched_prices env a).2 = none →
      (analyze_portfolio env (portfolio ++ [a])).details =
        (analyze_portfolio env portfolio).details ++
          [{ base := a, error := some "Could not fetch price/NAV data." }] ∧
      (analyze_portfolio env (portfolio ++ [a])).summary =
        (analyze_portfolio env portfolio).summary) := by
  constructor
  · intro env results
    constructor <;> · unfold aggregate_portfolio_results; simp [List.lookup]
  · intro env portfolio a h
    have he := analyze_error_of_fetch_fail env a h
    have hdet : (analyze_portfolio env (portfolio ++ [a])).details =
        (analyze_portfolio env portfolio).details ++
          [{ base := a, error := some "Could not fetch price/NAV data." }] := by
      simp [analyze_portfolio, he]
    refine ⟨hdet, ?_⟩
    show aggregate_portfolio_results env _ = aggregate_portfolio_results env _
    have hfil : ((portfolio ++ [a]).map (_analyze_single_asset env)).filter
        (fun r => r.error = none) =
        (portfolio.map (_analyze_single_asset env)).filter
          (fun r => r.error = none) := by
      simp [List.filter_append, he]
    unfold aggregate_portfolio_results
    rw [hfil]

end FinTrack

namespace FinTrack

/-- C6 (witness). -/
theorem C6_witness :
    (analyze_portfolio envAllTen ([lumpAsset] ++ [stockAssetBad])).summary =
      (analyze_portfolio envAllTen [lumpAsset]).summary ∧
    (analyze_portfolio envAllTen ([lumpAsset] ++ [stockAssetBad])).details =
      (analyze_portfolio envAllTen [lumpAsset]).details ++
        [{ base := stockAssetBad, error := some "Could not fetch price/NAV data." }] := by
  have h := C6_totals_over_non_errored_and_frame.2 envAllTen [lumpAsset] stockAssetBad
    (Or.inl rfl)
  exact ⟨h.2, h.1⟩

end FinTrack

namespace FinTrack

/-- If the NAVs for an initial stretch of installment indices resolve and
the next one is missing or zero (falsy), the SIP loop ends with
`all_installments_valid = false`. -/
theorem sip_loop_fail (env : Env) (name : String) (m : ℚ) (pd : Date) :
    ∀ (l1 : List Nat) (k : Nat) (l2 : List Nat) (st : SipState) (f : Nat → ℚ),
    (∀ i ∈ l1, env.getHistoricalNav name (installment_date pd i) = some (f i) ∧ f i ≠ 0) →
    (env.getHistoricalNav name (installment_date pd k) = none ∨
      env.getHistoricalNav name (installment_date pd k) = some 0) →
    (sip_loop env name m pd (l1 ++ k :: l2) st).all_installments_valid = false := by
  intro l1
  induction l1 with
  | nil =>
    intro k l2 st f _ hk
    rcases hk with hk | hk <;> simp [sip_loop, hk]
  | cons a t ih =>
    intro k l2 st f h hk
    obtain ⟨ha, hz⟩ := h a (List.mem_cons_self a t)
    simp only [List.cons_append, sip_loop, ha, hz, ne_eq, not_false_eq_true, if_true]
    exact ih k l2 _ f (fun i hi => h i (List.mem_cons_of_mem a hi)) hk

/-- C7: each of the enumerated per-holding failures is recorded on that
holding's own result and interrupts nothing: (i) on any run in which
every successfully fetched purchase price is nonzero (so the Python code
performs no division by zero), `analyze_portfolio` is total — it returns
one analyzed record per holding, each depending only on that holding, and
always produces the summary; (ii) an unfetchable price/NAV yields the
annotated record and nothing else; (iii) a missing or falsy installment
NAV leaves the holding error-free but marks its `XIRR` as `"N/A"`;
(iv) a non-convergent or inapplicable XIRR solve marks `XIRR` as `"N/A"`
on that record. -/
theorem C7_failures_annotated_not_raised :
    (∀ (env : Env) (portfolio : List InAsset),
      (∀ a ∈ portfolio, ∀ p cp : ℚ,
        fetched_prices env a = (some p, some cp) → p ≠ 0) →
      (analyze_portfolio env portfolio).details.length = portfolio.length ∧
      (∀ i (hi : i < portfolio.length),
        (analyze_portfolio env portfolio).details.get
            ⟨i, by simpa [analyze_portfolio] using hi⟩ =
          _analyze_single_asset env (portfolio.get ⟨i, hi⟩)) ∧
      (analyze_portfolio env portfolio).summary =
        aggregate_portfolio_results env
          (portfolio.map (_analyze_single_asset env))) ∧
    (∀ (env : Env) (a : InAsset),
      (fetched_prices env a).1 = none ∨ (fetched_prices env a).2 = none →
      (_analyze_single_asset env a).error = some "Could not fetch price/NAV data.") ∧
    (∀ (env : Env) (a : InAsset) (p0 cp : ℚ) (f : Nat → ℚ)
        (l1 : List Nat) (k : Nat) (l2 : List Nat),
      is_sip a = true →
      fetched_prices env a = (some p0, some cp) →
      List.range (number_of_months env.today a.purchaseDate).toNat = l1 ++ k :: l2 →
      (∀ i ∈ l1, env.getHistoricalNav a.name (installment_date a.purchaseDate i) =
        some (f i) ∧ f i ≠ 0) →
      (env.getHistoricalNav a.name (installment_date a.purchaseDate k) = none ∨
        env.getHistoricalNav a.name (installment_date a.purchaseDate k) = some 0) →
      (_analyze_single_asset env a).error = none ∧
      (_analyze_single_asset env a).xirrField = some none) ∧
    (∀ (env : Env) (a : InAsset) (p0 cp : ℚ),
      is_sip a = true →
      fetched_prices env a = (some p0, some cp) →
      (∀ flows dates, env.xirrSolve flows dates = none) →
      (_analyze_single_asset env a).error = none ∧
      (_analyze_single_asset env a).xirrField = some none) := by
  refine ⟨?_, ?_, ?_, ?_⟩
  · intro env portfolio _
    refine ⟨by simp [analyze_portfolio], ?_, rfl⟩
    intro i hi
    simp [analyze_portfolio]
  · intro env a h
    rw [analyze_error_of_fetch_fail env a h]
  · intro env a p0 cp f l1 k l2 hsip hfp hsplit hpre hk
    have hval := sip_loop_fail env a.name a.amountInvested a.purchaseDate
      l1 k l2 ⟨0, [], [], true⟩ f hpre hk
    simp only [_analyze_single_asset, hfp, hsip, if_true]
    rw [← hsplit] at hval
    simp [hval]
  · intro env a p0 cp hsip hfp hsolve
    simp only [_analyze_single_asset, hfp, hsip, if_true]
    constructor
    · trivial
    · by_cases hc : (sip_loop env a.name a.amountInvested a.purchaseDate
          (List.range (number_of_months env.today a.purchaseDate).toNat)
          ⟨0, [], [], true⟩).all_installments_valid = true ∧
          0 < (sip_loop env a.name a.amountInvested a.purchaseDate
            (List.range (number_of_months env.today a.purchaseDate).toNat)
            ⟨0, [], [], true⟩).units_or_shares * cp
      · simp [hc, hsolve]
      · simp [hc]

end FinTrack

namespace FinTrack

/-- C7 (witness). -/
theorem C7_witness :
    (analyze_portfolio envAllTen [lumpAsset]).details.length = 1 ∧
    (_analyze_single_asset envAllTen stockAssetBad).error =
      some "Could not fetch price/NAV data." ∧
    ((_analyze_single_asset envFirstOnly sipAsset).error = none ∧
      (_analyze_single_asset envFirstOnly sipAsset).xirrField = some none) ∧
    ((_analyze_single_asset envSolverFail sipAsset).error = none ∧
      (_analyze_single_asset envSolverFail sipAsset).xirrField = some none) := by
  refine ⟨?_, ?_, ?_, ?_⟩
  · refine (C7_failures_annotated_not_raised.1 envAllTen [lumpAsset] ?_).1
    intro a ha p cp hfp
    have ha2 := List.mem_singleton.mp ha
    subst ha2
    rw [show fetched_prices envAllTen lumpAsset = (some 10, some 12) from rfl] at hfp
    simp at hfp
    obtain ⟨h1, h2⟩ := hfp
    subst h1
    norm_num
  · exact C7_failures_annotated_not_raised.2.1 envAllTen stockAssetBad (Or.inl rfl)
  · exact C7_failures_annotated_not_raised.2.2.1 envFirstOnly sipAsset 10 12
      (fun _ => 10) [0] 1 [2] (by decide) rfl (by decide)
      (by intro i hi
          have hi2 := List.mem_singleton.mp hi
          subst hi2
          exact ⟨rfl, by norm_num⟩)
      (Or.inl rfl)
  · exact C7_failures_annotated_not_raised.2.2.2 envSolverFail sipAsset 10 12
      (by decide) rfl (fun _ _ => rfl)

end FinTrack

namespace FinTrack

/-- Closed form of `monthShift` for a real month number. -/
theorem monthShift_eq (y : Int) (m : Nat) (hm1 : 1 ≤ m) (hm2 : m ≤ 12) :
    ∀ i, monthShift y m i =
      (y + ((m - 1 + i) / 12 : ℕ), (m - 1 + i) % 12 + 1) := by
  intro i
  induction i with
  | zero =>
    have h1 : (m - 1 + 0) / 12 = 0 := by omega
    have h2 : (m - 1 + 0) % 12 + 1 = m := by omega
    simp only [monthShift, h1, h2]
    simp
  | succ i ih =>
    simp only [monthShift, ih, monthAfter]
    by_cases h : (m - 1 + i) % 12 + 1 = 12
    · have h1 : (m - 1 + (i + 1)) / 12 = (m - 1 + i) / 12 + 1 := by omega
      have h2 : (m - 1 + (i + 1)) % 12 + 1 = 1 := by omega
      simp only [h, if_true, h1, h2, Prod.mk.injEq]
      constructor
      · push_cast
        ring
      · trivial
    · have h1 : (m - 1 + (i + 1)) / 12 = (m - 1 + i) / 12 := by omega
      have h2 : (m - 1 + (i + 1)) % 12 + 1 = (m - 1 + i) % 12 + 1 + 1 := by omega
      simp only [h, if_false, h1, h2]

end FinTrack

namespace FinTrack

/-- Every month length is at least 1 (in fact at least 28). -/
theorem one_le_last_day_of_month (y : Int) (m : Nat) :
    1 ≤ last_day_of_month y m := by
  unfold last_day_of_month
  split_ifs <;> norm_num

/-- C10: the installment schedules synthesized inside
`_analyze_single_asset` (lines 59–64) and inside
`calculate_portfolio_xirr` (lines 148–153) are identical — the per-index
dates agree, the whole synthesized lists agree, and the dates the SIP
loop actually records are exactly that schedule; the schedule has
`(today.year − purchase.year)·12 + (today.month − purchase.month) + 1`
entries whenever that count is non-negative; each synthesized date is the
purchase date shifted by `i` calendar months with the day clamped to
`min(purchase day, target month length)`; and every synthesized date is a
valid calendar date. -/
theorem C10_installment_schedules :
    (∀ (pd : Date) (i : Nat), installment_date pd i = installment_date_pxirr pd i) ∧
    (∀ (today pd : Date), sip_schedule_analyze today pd = sip_schedule_pxirr today pd) ∧
    (∀ (env : Env) (name : String) (m : ℚ) (pd : Date) (f : Nat → ℚ),
      (∀ i ∈ List.range (number_of_months env.today pd).toNat,
        env.getHistoricalNav name (installment_date pd i) = some (f i) ∧ f i ≠ 0) →
      (sip_loop env name m pd (List.range (number_of_months env.today pd).toNat)
        ⟨0, [], [], true⟩).dates = sip_schedule_analyze env.today pd) ∧
    (∀ (today pd : Date), 0 ≤ number_of_months today pd →
      ((sip_schedule_analyze today pd).length : ℤ) = number_of_months today pd) ∧
    (∀ pd : Date, 1 ≤ pd.month → pd.month ≤ 12 → ∀ i,
      installment_date pd i = addMonthsClamped pd i) ∧
    (∀ pd : Date, pd.valid → ∀ i, (installment_date pd i).valid) := by
  refine ⟨fun pd i => rfl, fun today pd => rfl, ?_, ?_, ?_, ?_⟩
  · intro env name m pd f h
    rw [sip_loop_total env name m pd _ _ f h]
    simp [sip_schedule_analyze]
  · intro today pd h
    simp [sip_schedule_analyze, Int.toNat_of_nonneg h]
  · intro pd hm1 hm2 i
    have he : pd.month + i - 1 = pd.month - 1 + i := by omega
    simp [installment_date, addMonthsClamped, monthShift_eq pd.year pd.month hm1 hm2,
      he]
  · intro pd hv i
    obtain ⟨h1, h2, h3, h4⟩ := hv
    simp only [installment_date, Date.valid]
    have hmod : (pd.month + i - 1) % 12 < 12 := Nat.mod_lt _ (by norm_num)
    refine ⟨by omega, by omega, ?_, ?_⟩
    · exact Nat.le_min.mpr ⟨h3, one_le_last_day_of_month _ _⟩
    · exact Nat.min_le_right _ _

/-- C10 (witness). -/
theorem C10_witness :
    (sip_loop envAllTen "F" 1000 ⟨2024, 1, 15⟩
      (List.range (number_of_months envAllTen.today ⟨2024, 1, 15⟩).toNat)
      ⟨0, [], [], true⟩).dates = sip_schedule_analyze envAllTen.today ⟨2024, 1, 15⟩ ∧
    ((sip_schedule_analyze ⟨2024, 3, 20⟩ ⟨2024, 1, 15⟩).length : ℤ) =
      number_of_months ⟨2024, 3, 20⟩ ⟨2024, 1, 15⟩ ∧
    installment_date ⟨2024, 1, 31⟩ 1 = addMonthsClamped ⟨2024, 1, 31⟩ 1 ∧
    (installment_date ⟨2024, 1, 31⟩ 13).valid := by
  refine ⟨?_, ?_, ?_, ?_⟩
  · exact C10_installment_schedules.2.2.1 envAllTen "F" 1000 ⟨2024, 1, 15⟩
      (fun _ => 10) (by intro i hi; exact ⟨rfl, by norm_num⟩)
  · exact C10_installment_schedules.2.2.2.1 ⟨2024, 3, 20⟩ ⟨2024, 1, 15⟩ (by decide)
  · exact C10_installment_schedules.2.2.2.2.1 ⟨2024, 1, 31⟩ (by decide) (by decide) 1
  · exact C10_installment_schedules.2.2.2.2.2 ⟨2024, 1, 31⟩ (by decide) 13

end FinTrack

namespace FinTrack

/-- Decoding a digit character recovers the digit. -/
theorem digitVal_digitChar (k : Nat) (h : k < 10) :
    digitVal (digitChar k) = some k := by
  interval_cases k <;> decide

/-- Decoding the character of `k % 10` recovers `k % 10`. -/
theorem digitVal_digitChar_mod (k : Nat) :
    digitVal (digitChar (k % 10)) = some (k % 10) := by
  have h : k % 10 < 10 := Nat.mod_lt _ (by norm_num)
  generalize k % 10 = m at *
  exact digitVal_digitChar m h

/-- `mapM` over a pointwise-invertible `map` recovers the original
list. -/
theorem mapM_map_of_pointwise {α β : Type} (f : α → β) (g : β → Option α) :
    ∀ l : List α, (∀ x ∈ l, g (f x) = some x) → (l.map f).mapM g = some l := by
  intro l
  induction l with
  | nil => intro _; rfl
  | cons a t ih =>
    intro h
    simp only [List.map_cons, List.mapM_cons, h a (List.mem_cons_self a t),
      ih fun x hx => h x (List.mem_cons_of_mem a hx), Option.pure_def,
      Option.bind_eq_bind, Option.some_bind]

/-- Parsing the ISO string of a real calendar date (year 1–9999, the
`datetime.date` range) recovers the date. -/
theorem fromisoformat_isoformat (d : Date) (hv : d.valid)
    (hy1 : 1 ≤ d.year) (hy2 : d.year ≤ 9999) :
    Date.fromisoformat d.isoformat = some d := by
  obtain ⟨hm1, hm2, hd1, hd2⟩ := hv
  have hyn : d.year.toNat ≤ 9999 := by omega
  unfold Date.fromisoformat Date.isoformat
  show Date.fromisoformatL d.isoformatL = some d
  unfold Date.isoformatL pad4 pad2
  simp only [List.cons_append, List.nil_append]
  simp only [Date.fromisoformatL]
  rw [if_pos (⟨trivial, trivial⟩ : True ∧ True)]
  simp only [digitVal_digitChar_mod]
  simp only [Option.bind_eq_bind, Option.some_bind]
  have hlast : last_day_of_month d.year d.month ≤ 31 := by
    unfold last_day_of_month
    split_ifs <;> omega
  have hy : (1000 * (d.year.toNat / 1000 % 10) + 100 * (d.year.toNat / 100 % 10) +
      10 * (d.year.toNat / 10 % 10) + d.year.toNat % 10) = d.year.toNat := by omega
  have hmm : 10 * (d.month / 10 % 10) + d.month % 10 = d.month := by omega
  have hdd : 10 * (d.day / 10 % 10) + d.day % 10 = d.day := by omega
  rw [hy, hmm, hdd]
  have hyz : ((d.year.toNat : ℕ) : ℤ) = d.year := Int.toNat_of_nonneg (by omega)
  have hrec : (⟨((d.year.toNat : ℕ) : ℤ), d.month, d.day⟩ : Date) = d := by
    cases d
    simp_all
  simp only [hrec, hyz]
  rw [if_pos ⟨hy1, hm1, hm2, hd1, hd2⟩]

end FinTrack

namespace FinTrack

/-- Deserializing a serialized record recovers it, provided its
`"Purchase Date"` entries are real dates (years 1–9999) as `datetime.date`
guarantees. -/
theorem deserialize_serialize (a : Asset)
    (h : ∀ kv ∈ a, kv.1 = "Purchase Date" →
      ∃ dd : Date, kv.2 = .date dd ∧ dd.valid ∧ 1 ≤ dd.year ∧ dd.year ≤ 9999) :
    deserialize_asset (serialize_asset a) = some a := by
  unfold serialize_asset deserialize_asset
  apply mapM_map_of_pointwise
  intro kv hkv
  obtain ⟨k, v⟩ := kv
  by_cases hk : k = "Purchase Date"
  · obtain ⟨dd, hv, hval, hy1, hy2⟩ := h ⟨k, v⟩ hkv hk
    simp only at hv
    subst hk
    subst hv
    simp only [reduceIte]
    rw [fromisoformat_isoformat dd hval hy1 hy2]
  · simp only [hk, if_false]

/-- C9: saving a portfolio whose records carry a real calendar date under
`"Purchase Date"` and JSON-representable values elsewhere succeeds (dates
are written as ISO-8601 strings), loading the saved file parses the ISO
strings back to dates and returns an equal list, and loading an absent
file returns the empty portfolio. -/
theorem C9_storage_roundtrip :
    (∀ portfolio : List Asset,
      (∀ a ∈ portfolio, ∀ kv ∈ a,
        (kv.1 = "Purchase Date" → ∃ dd : Date, kv.2 = .date dd ∧ dd.valid ∧
          1 ≤ dd.year ∧ dd.year ≤ 9999) ∧
        (kv.1 ≠ "Purchase Date" → kv.2.jsonRepresentable)) →
      save_portfolio portfolio = some (portfolio.map serialize_asset) ∧
      load_portfolio (some (portfolio.map serialize_asset)) = some portfolio) ∧
    load_portfolio none = some [] := by
  constructor
  · intro portfolio h
    constructor
    · unfold save_portfolio
      rw [if_pos]
      intro a ha kv hkv
      obtain ⟨b, hb, rfl⟩ := List.mem_map.mp ha
      unfold serialize_asset at hkv
      obtain ⟨kv0, hkv0, rfl⟩ := List.mem_map.mp hkv
      obtain ⟨hpd, hrep⟩ := h b hb kv0 hkv0
      by_cases hk : kv0.1 = "Purchase Date"
      · obtain ⟨dd, hv, _⟩ := hpd hk
        simp [hk, hv, Value.jsonRepresentable]
      · simp only [hk, if_false]
        exact hrep hk
    · unfold load_portfolio
      apply mapM_map_of_pointwise
      intro a ha
      exact deserialize_serialize a fun kv hkv hk => (h a ha kv hkv).1 hk
  · rfl

/-- C9 (witness). -/
theorem C9_witness :
    save_portfolio [storedAsset] = some ([storedAsset].map serialize_asset) ∧
    load_portfolio (some ([storedAsset].map serialize_asset)) = some [storedAsset] ∧
    load_portfolio none = some [] := by
  have h := C9_storage_roundtrip.1 [storedAsset] ?_
  · exact ⟨h.1, h.2, C9_storage_roundtrip.2⟩
  · intro a ha kv hkv
    have ha2 := List.mem_singleton.mp ha
    subst ha2
    simp only [storedAsset, List.mem_cons, List.not_mem_nil, or_false] at hkv
    rcases hkv with rfl | rfl | rfl | rfl | rfl
    · exact ⟨fun hc => by simp at hc, fun _ => trivial⟩
    · exact ⟨fun hc => by simp at hc, fun _ => trivial⟩
    · exact ⟨fun hc => by simp at hc, fun _ => trivial⟩
    · exact ⟨fun _ => ⟨⟨2022, 5, 10⟩, rfl, by decide, by decide, by decide⟩,
        fun hne => absurd rfl hne⟩
    · exact ⟨fun hc => by simp at hc, fun _ => trivial⟩

end FinTrack

namespace FinTrack

/-- 1.099 raised to the 2924 ≤ 1.21 raised to the 1461 (integer cross
multiplication). -/
theorem cagr_nat_bound_lo : (1099:ℕ)^2924 * 100^1461 ≤ 121^1461 * 1000^2924 := by
  norm_num

/-- 1.21 raised to the 1461 ≤ 1.101 raised to the 2920. -/
theorem cagr_nat_bound_hi : (121:ℕ)^1461 * 1000^2920 ≤ 1101^2920 * 100^1461 := by
  norm_num

/-- Lower bound on the two-year CAGR base: `1.099 ≤ 1.21 ^ (1461/2924)`. -/
theorem cagr_rpow_lo : (1099/1000 : ℝ) ≤ (121/100 : ℝ) ^ ((1461:ℝ)/2924) := by
  have hb : (0:ℝ) ≤ (121/100 : ℝ) ^ ((1461:ℝ)/2924) :=
    Real.rpow_nonneg (by norm_num) _
  apply le_of_pow_le_pow_left (n := 2924) (by norm_num) hb
  have he : ((121/100 : ℝ) ^ ((1461:ℝ)/2924)) ^ (2924:ℕ) =
      (121/100 : ℝ) ^ (1461:ℕ) := by
    rw [← Real.rpow_natCast ((121/100 : ℝ) ^ ((1461:ℝ)/2924)) 2924,
      ← Real.rpow_mul (by norm_num)]
    norm_num
  rw [he, div_pow, div_pow, div_le_div_iff (by positivity) (by positivity)]
  exact_mod_cast cagr_nat_bound_lo

/-- Upper bound on the two-year CAGR base: `1.21 ^ (1461/2920) ≤ 1.101`. -/
theorem cagr_rpow_hi : (121/100 : ℝ) ^ ((1461:ℝ)/2920) ≤ (1101/1000 : ℝ) := by
  have hb : (0:ℝ) ≤ (1101/1000 : ℝ) := by norm_num
  apply le_of_pow_le_pow_left (n := 2920) (by norm_num)
    hb
  have he : ((121/100 : ℝ) ^ ((1461:ℝ)/2920)) ^ (2920:ℕ) =
      (121/100 : ℝ) ^ (1461:ℕ) := by
    rw [← Real.rpow_natCast ((121/100 : ℝ) ^ ((1461:ℝ)/2920)) 2920,
      ← Real.rpow_mul (by norm_num)]
    norm_num
  rw [he, div_pow, div_pow, div_le_div_iff (by positivity) (by positivity)]
  exact_mod_cast cagr_nat_bound_hi

end FinTrack

namespace FinTrack

/-- Rounding `(x − 1)·100` to two decimals stays within `[9.9, 10.1]`
when `1.099 ≤ x ≤ 1.101`. -/
theorem roundTo2R_near_ten {x : ℝ} (h1 : (1099/1000 : ℝ) ≤ x)
    (h2 : x ≤ (1101/1000 : ℝ)) :
    (9.9:ℝ) ≤ roundTo2R ((x - 1) * 100) ∧ roundTo2R ((x - 1) * 100) ≤ 10.1 := by
  unfold roundTo2R
  constructor
  · have hfl : (990 : ℤ) ≤ ⌊(x - 1) * 100 * 100 + 1/2⌋ :=
      Int.le_floor.mpr (by push_cast; linarith)
    have hc : ((990:ℤ):ℝ) ≤ ((⌊(x - 1) * 100 * 100 + 1/2⌋ : ℤ) : ℝ) := by
      exact_mod_cast hfl
    rw [show (9.9:ℝ) = 990/100 by norm_num]
    exact (div_le_div_right (by norm_num)).mpr (by exact_mod_cast hc)
  · have hfl : ⌊(x - 1) * 100 * 100 + 1/2⌋ < 1011 :=
      Int.floor_lt.mpr (by push_cast; linarith)
    have hfl2 : ⌊(x - 1) * 100 * 100 + 1/2⌋ ≤ 1010 := by omega
    have hc : ((⌊(x - 1) * 100 * 100 + 1/2⌋ : ℤ) : ℝ) ≤ ((1010:ℤ):ℝ) := by
      exact_mod_cast hfl2
    rw [show (10.1:ℝ) = 1010/100 by norm_num]
    exact (div_le_div_right (by norm_num)).mpr (by exact_mod_cast hc)

/-- On the successful lumpsum path, the `"CAGR"` value is `cagr_field`
applied to the stored total invested and current value. -/
theorem analyzed_cagr_lumpsum (env : Env) (a : InAsset) (p0 cp : ℚ)
    (hsip : is_sip a = false) (hfp : fetched_prices env a = (some p0, some cp)) :
    analyzed_cagr env a =
      some (cagr_field env.today a.purchaseDate a.amountInvested
        (a.amountInvested / p0 * cp)) := by
  unfold analyzed_cagr
  simp only [_analyze_single_asset, hfp, hsip, Bool.false_eq_true, if_false]
  simp

/-- C5: on the lumpsum path the annualized return uses elapsed years
`(today − acquisition_date).days / 365.25`: a non-positive day count
yields `"N/A"` (NotApplicable); a positive day count with positive total
invested yields `round((­(cv/ti)^(1/years) − 1)·100, 2)`; and in the
scenario `amount_invested = 10000`, acquisition NAV 100, current NAV 121
(current value 12100), exactly two years (730 or 731 days) before today,
the stored CAGR lies within 0.1 of 10.00. -/
theorem C5_lumpsum_cagr (env : Env) (a : InAsset) (p0 cp : ℚ)
    (hsip : is_sip a = false)
    (hfp : fetched_prices env a = (some p0, some cp)) :
    (daysBetween a.purchaseDate env.today ≤ 0 →
      analyzed_cagr env a = some none) ∧
    (0 < daysBetween a.purchaseDate env.today → 0 < a.amountInvested →
      analyzed_cagr env a = some (some (roundTo2R
        (((((a.amountInvested / p0 * cp : ℚ) : ℝ) / ((a.amountInvested : ℚ) : ℝ)) ^
          (1 / years_held env.today a.purchaseDate) - 1) * 100)))) ∧
    (p0 = 100 → cp = 121 → a.amountInvested = 10000 →
      (daysBetween a.purchaseDate env.today = 730 ∨
        daysBetween a.purchaseDate env.today = 731) →
      ∃ c : ℝ, analyzed_cagr env a = some (some c) ∧ 9.9 ≤ c ∧ c ≤ 10.1) := by
  have hbase := analyzed_cagr_lumpsum env a p0 cp hsip hfp
  refine ⟨?_, ?_, ?_⟩
  · intro hd
    rw [hbase]
    unfold cagr_field
    rw [if_neg]
    rintro ⟨hy, -⟩
    have hnum : ((daysBetween a.purchaseDate env.today : ℤ) : ℝ) ≤ 0 := by
      exact_mod_cast hd
    have : years_held env.today a.purchaseDate ≤ 0 := by
      unfold years_held
      apply div_nonpos_of_nonpos_of_nonneg hnum
      norm_num
    linarith
  · intro hd hti
    rw [hbase]
    unfold cagr_field
    rw [if_pos]
    refine ⟨?_, hti⟩
    unfold years_held
    apply div_pos
    · exact_mod_cast hd
    · norm_num
  · intro hp0 hcp hamt hdays
    subst hp0
    subst hcp
    have h1 : (0:ℚ) < a.amountInvested := by rw [hamt]; norm_num
    have hdpos : 0 < daysBetween a.purchaseDate env.today := by
      rcases hdays with h | h <;> omega
    have hcv : ((a.amountInvested / 100 * 121 : ℚ) : ℝ) /
        ((a.amountInvested : ℚ) : ℝ) = 121/100 := by
      rw [hamt]
      push_cast
      norm_num
    have hypos : 0 < years_held env.today a.purchaseDate := by
      unfold years_held
      apply div_pos
      · exact_mod_cast hdpos
      · norm_num
    rw [hbase]
    unfold cagr_field
    rw [if_pos ⟨hypos, h1⟩]
    have hE : 1 / years_held env.today a.purchaseDate = (1461:ℝ)/2920 ∨
        1 / years_held env.today a.purchaseDate = (1461:ℝ)/2924 := by
      rcases hdays with h | h
      · left
        unfold years_held
        rw [h]
        push_cast
        norm_num
      · right
        unfold years_held
        rw [h]
        push_cast
        norm_num
    rw [hcv]
    rcases hE with hEe | hEe <;> rw [hEe]
    · exact ⟨_, rfl,
        (roundTo2R_near_ten
          (le_trans cagr_rpow_lo
            (Real.rpow_le_rpow_of_exponent_le (by norm_num) (by norm_num)))
          cagr_rpow_hi).1,
        (roundTo2R_near_ten
          (le_trans cagr_rpow_lo
            (Real.rpow_le_rpow_of_exponent_le (by norm_num) (by norm_num)))
          cagr_rpow_hi).2⟩
    · exact ⟨_, rfl,
        (roundTo2R_near_ten cagr_rpow_lo
          (le_trans (Real.rpow_le_rpow_of_exponent_le (by norm_num) (by norm_num))
            cagr_rpow_hi)).1,
        (roundTo2R_near_ten cagr_rpow_lo
          (le_trans (Real.rpow_le_rpow_of_exponent_le (by norm_num) (by norm_num))
            cagr_rpow_hi)).2⟩

end FinTrack

namespace FinTrack

/-- C5 (witness): 10000 invested on 2022-05-10 at NAV 100, valued at NAV
121 on 2024-05-10 (731 days later), stores a CAGR within 0.1 of 10. -/
theorem C5_witness :
    ∃ c : ℝ, analyzed_cagr envCagr lumpAsset = some (some c) ∧
      (9.9:ℝ) ≤ c ∧ c ≤ 10.1 := by
  exact (C5_lumpsum_cagr envCagr lumpAsset 100 121 (by decide) rfl).2.2
    rfl rfl rfl (Or.inr (by decide))

end FinTrack
